import Mathlib

/-!
Shallow embedding of the client-side portfolio reconciliation and rendering
pipeline of `src/frontend/app.js` (ai-portfolio-analyzer frontend), together
with proofs of the specification's claims about it.

Modelling conventions:
* JavaScript numbers are modelled as rationals (`ℚ`); the claims under
  verification are exact arithmetic identities.
* A JavaScript object field that may be `undefined` is modelled as an
  `Option`; the idiom `x || d` on a numeric field is `Option.getD · d`
  combined with the JS rule that `0` is falsy where that matters.
* A JavaScript object used as a string-keyed map (the localStorage
  portfolio, the `prices` snapshot) is an association list
  `List (String × _)` in key-insertion order, with unique keys in the
  states the program produces.
-/

namespace PortfolioApp

/-- A holding as stored in the localStorage portfolio:
`{shares, cost_average}` (app.js line 240 / 271). -/
structure LocalHolding where
  shares : ℚ
  cost_average : ℚ
  deriving DecidableEq, Repr

/-- The Local Holdings Store: the JSON object persisted under
`ai_portfolio_holdings`, keyed by symbol. -/
abbrev Store := List (String × LocalHolding)

/-- One entry of the fetched price snapshot `priceData.prices[symbol]`
(app.js lines 73–74, 86, 93): any of the fields the reconciler reads may be
absent. -/
structure LiveQuote where
  price : Option ℚ
  change_percent : Option ℚ
  name : Option String
  deriving DecidableEq, Repr

/-- The quote with every field missing: what `priceData.prices?.[symbol] || {}`
produces when the symbol is absent from the snapshot (app.js line 73). -/
def emptyQuote : LiveQuote := ⟨none, none, none⟩

/-- The decoded response of `/api/portfolio/prices`: the `prices` field may
itself be absent (`priceData.prices?.` on line 73). -/
structure PriceResp where
  prices : Option (List (String × LiveQuote))
  deriving DecidableEq, Repr

/-- First-match association-list lookup (JS property access on a
unique-keyed object). -/
def lookupStore : Store → String → Option LocalHolding
  | [], _ => none
  | (k, v) :: rest, sym => if k = sym then some v else lookupStore rest sym

/-- Association-list lookup into the price snapshot. -/
def lookupQuoteList : List (String × LiveQuote) → String → Option LiveQuote
  | [], _ => none
  | (k, v) :: rest, sym => if k = sym then some v else lookupQuoteList rest sym

/-- Model of `priceData.prices?.[symbol] || {}` (app.js line 73): a missing `prices`
object or a missing symbol entry both yield the empty quote. -/
def lookupQuote (priceData : PriceResp) (symbol : String) : LiveQuote :=
  match priceData.prices with
  | none => emptyQuote
  | some l => (lookupQuoteList l symbol).getD emptyQuote

/-- The per-holding view model built by the merge in `loadPortfolio`
(app.js lines 84–94). -/
structure HoldingVM where
  symbol : String
  name : String
  shares : ℚ
  cost_average : ℚ
  price : ℚ
  value : ℚ
  pl : ℚ
  pl_percent : ℚ
  change_percent : ℚ
  deriving DecidableEq, Repr

/-- The body of the `symbols.map` callback in `loadPortfolio`
(app.js lines 71–95): merge one local holding with its live quote.
`live.price || 0` and `live.change_percent || 0` are `Option.getD · 0`
(a present numeric `0` is falsy in JS and likewise yields `0`). -/
def mkHoldingVM (symbol : String) (loc : LocalHolding) (live : LiveQuote) :
    HoldingVM :=
  let price := live.price.getD 0
  let value := price * loc.shares
  let costBasis := loc.cost_average * loc.shares
  let pl := if costBasis > 0 then value - costBasis else 0
  { symbol := symbol
    name := live.name.getD symbol
    shares := loc.shares
    cost_average := loc.cost_average
    price := price
    value := value
    pl := pl
    pl_percent := if costBasis > 0 then (value - costBasis) / costBasis * 100 else 0
    change_percent := live.change_percent.getD 0 }

/-- The view-model list built by one reconciliation pass: `symbols.map(...)`
over the keys of the local portfolio (app.js lines 54, 71–95). -/
def reconcileHoldings (localPortfolio : Store) (priceData : PriceResp) :
    List HoldingVM :=
  localPortfolio.map fun p => mkHoldingVM p.1 p.2 (lookupQuote priceData p.1)

/-- The summary object `{total_value, daily_change, total_pl}` assembled on
app.js line 97. -/
structure PortfolioSummary where
  total_value : ℚ
  daily_change : ℚ
  total_pl : ℚ
  deriving DecidableEq, Repr

/-- The three running accumulators of `loadPortfolio` (app.js lines 67–69 and
80–82): `totalValue += value`, `dailyChange += dayChange`, `totalPL += pl`,
added left to right over the same pass that builds the view models. -/
def reconcileSummary (holdings : List HoldingVM) : PortfolioSummary :=
  { total_value := holdings.foldl (fun acc h => acc + h.value) 0
    daily_change := holdings.foldl (fun acc h => acc + h.change_percent / 100 * h.value) 0
    total_pl := holdings.foldl (fun acc h => acc + h.pl) 0 }

/-- Embedding of `getLocalPortfolio` (app.js lines 12–15): read the persisted slot; an
absent entry yields `{}`. Serialization is modelled as the identity on the
mapping (`JSON.parse ∘ JSON.stringify` is the identity on the plain data
objects this store holds), so the localStorage slot is `Option Store`. -/
def getLocalPortfolio (ls : Option Store) : Store :=
  match ls with
  | none => []
  | some data => data

/-- Embedding of `saveLocalPortfolio` (app.js lines 17–19): overwrite the persisted slot
with the serialized mapping (a full replace, not a merge). -/
def saveLocalPortfolio (portfolio : Store) : Option Store :=
  some portfolio

/-- JS object assignment `portfolio[symbol] = {...}` (app.js line 240):
overwrite in place when the key exists, append otherwise. -/
def upsert : Store → String → LocalHolding → Store
  | [], sym, h => [(sym, h)]
  | (k, v) :: rest, sym, h =>
      if k = sym then (k, h) :: rest else (k, v) :: upsert rest sym h

/-- ASCII whitespace removed by `String.prototype.trim`. -/
def isWsChar (c : Char) : Bool :=
  c = ' ' || c = '\t' || c = '\n' || c = '\r'

/-- Model of `input.trim()` (app.js line 220): strip leading and trailing whitespace. -/
def jsTrim (s : String) : String :=
  String.mk (((s.data.dropWhile isWsChar).reverse.dropWhile isWsChar).reverse)

/-- Model of `input.toUpperCase()` (app.js line 220), character by character. -/
def jsToUpper (s : String) : String :=
  String.mk (s.data.map Char.toUpper)

/-- The JS idiom `parseFloat(input) || default` (app.js lines 221–222): a
parse result of `NaN` (modelled `none`) or `0` (both falsy) falls back to the
default. -/
def jsOr (v : Option ℚ) (d : ℚ) : ℚ :=
  match v with
  | none => d
  | some q => if q = 0 then d else q

/-- Outcome of the symbol-validation request `GET /api/stock/{symbol}`
(app.js lines 233–236): success, non-success HTTP status, or a network
error thrown by `fetch` itself. -/
inductive ValidateOutcome
  | ok
  | httpError
  | networkError
  deriving DecidableEq, Repr

/-- User-visible result of `addStock`: an `alert` message, or the holding
was added. -/
inductive AddResult
  | alerted (msg : String)
  | added
  deriving DecidableEq, Repr

/-- Embedding of `addStock` (app.js lines 215–254): normalize the symbol input
(`trim().toUpperCase()`), coerce the numeric inputs with `|| 1` / `|| 0`,
block on an empty symbol, validate over HTTP, and only on success write the
holding into the store. Both error outcomes are caught and alerted, leaving
the store untouched. -/
def addStock (symbolInput : String) (sharesVal costVal : Option ℚ)
    (validation : ValidateOutcome) (store : Store) : Store × AddResult :=
  let symbol := jsToUpper (jsTrim symbolInput)
  let shares := jsOr sharesVal 1
  let costAverage := jsOr costVal 0
  if symbol = "" then (store, .alerted "Please enter a stock symbol")
  else
    match validation with
    | .ok => (upsert store symbol ⟨shares, costAverage⟩, .added)
    | .httpError => (store, .alerted ("Invalid symbol: " ++ symbol))
    | .networkError => (store, .alerted "Failed to fetch")

/-- One entry of the `/api/sectors` response (app.js lines 429–454): fields
the renderer reads, each possibly absent. -/
structure Sector where
  name : String
  symbol : String
  price : Option ℚ
  change_percent : Option ℚ
  change_1w : Option ℚ
  change_1m : Option ℚ
  deriving DecidableEq, Repr

/-- The JS comparison `x >= 0` on a possibly-`undefined` field
(app.js line 430): `undefined >= 0` is `false`; a number compares normally. -/
def jsNonNeg (v : Option ℚ) : Bool :=
  match v with
  | none => false
  | some q => decide (0 ≤ q)

/-- The classification of one sector card as built by the `map` callback in
`loadSectors` (app.js lines 429–435): `rank = index + 1` and
`isTopGainer = rank <= 3 && isPositive`. -/
structure SectorCard where
  name : String
  symbol : String
  rank : Nat
  positive : Bool
  topGainer : Bool
  deriving DecidableEq, Repr

/-- Build one sector card from its 0-based position (app.js lines 429–435). -/
def renderSectorCard (index : Nat) (s : Sector) : SectorCard :=
  let isPositive := jsNonNeg s.change_percent
  let rank := index + 1
  { name := s.name
    symbol := s.symbol
    rank := rank
    positive := isPositive
    topGainer := decide (rank ≤ 3) && isPositive }

/-- Model of `data.sectors.map((sector, index) => ...)` (app.js line 429). -/
def renderSectorCards (sectors : List Sector) : List SectorCard :=
  sectors.enum.map fun p => renderSectorCard p.1 p.2

/-- Result of one `fetch` + `response.json()` pair: decoded data, or a
network/parse failure (the thrown error caught by the surrounding `try`). -/
inductive FetchOutcome (α : Type)
  | success (data : α)
  | failure
  deriving DecidableEq, Repr

/-- The decoded `/api/sectors` response; `data.sectors` may be absent
(app.js line 420). -/
structure SectorsResp where
  sectors : Option (List Sector)
  deriving DecidableEq, Repr

/-- One article of the `/api/market-feed` response, with the fields the news
renderer reads (app.js lines 489–497). -/
structure Article where
  link : Option String
  display_name : Option String
  text : Option String
  time : Option String
  symbols : Option String
  deriving DecidableEq, Repr

/-- The decoded `/api/market-feed` response; `data.articles` may be absent
(app.js line 480). -/
structure NewsResp where
  articles : Option (List Article)
  deriving DecidableEq, Repr

/-- What a fetch-and-render pass writes into its panel: the structured
content of the HTML fragment assigned to `innerHTML`. -/
inductive PanelContent
  | holdingsView (summary : PortfolioSummary) (holdings : List HoldingVM)
  | sectorCards (cards : List SectorCard)
  | noSectorData
  | couldNotLoadSectors
  | newsCards (articles : List Article)
  | noNewsData
  | couldNotLoadNews
  deriving DecidableEq, Repr

/-- Net effect of one loader call: `panel = some c` means the panel's
`innerHTML` was set to `c`, `none` means the panel was left untouched;
`logged` records whether the `catch` block ran `console.error`. -/
structure LoaderResult where
  panel : Option PanelContent
  logged : Bool
  deriving DecidableEq, Repr

/-- Embedding of `loadPortfolio` (app.js lines 51–102): with no local symbols, render the
empty summary and empty grid without fetching; otherwise fetch prices and
render the merge. The `catch` (lines 99–101) only logs — the panel is left
as it was. -/
def loadPortfolioModel (ls : Option Store) (fetched : FetchOutcome PriceResp) :
    LoaderResult :=
  let localPortfolio := getLocalPortfolio ls
  if localPortfolio.isEmpty then
    ⟨some (.holdingsView ⟨0, 0, 0⟩ []), false⟩
  else
    match fetched with
    | .failure => ⟨none, true⟩
    | .success priceData =>
        let holdings := reconcileHoldings localPortfolio priceData
        ⟨some (.holdingsView (reconcileSummary holdings) holdings), false⟩

/-- Embedding of `loadSectors` (app.js lines 412–469): on failure the `catch` logs and
writes the "Could not load sectors" placeholder; an absent or empty
`sectors` list renders the no-data note; otherwise the ranked cards. -/
def loadSectorsModel (fetched : FetchOutcome SectorsResp) : LoaderResult :=
  match fetched with
  | .failure => ⟨some .couldNotLoadSectors, true⟩
  | .success data =>
      match data.sectors with
      | none => ⟨some .noSectorData, false⟩
      | some l =>
          if l.isEmpty then ⟨some .noSectorData, false⟩
          else ⟨some (.sectorCards (renderSectorCards l)), false⟩

/-- Embedding of `loadNews` (app.js lines 472–508): on failure the `catch` logs and
writes the "Could not load news" placeholder; an absent or empty `articles`
list renders the no-data note; otherwise the article cards. -/
def loadNewsModel (fetched : FetchOutcome NewsResp) : LoaderResult :=
  match fetched with
  | .failure => ⟨some .couldNotLoadNews, true⟩
  | .success data =>
      match data.articles with
      | none => ⟨some .noNewsData, false⟩
      | some l =>
          if l.isEmpty then ⟨some .noNewsData, false⟩
          else ⟨some (.newsCards l), false⟩

/-- Whether a loader call left a "could not load" placeholder in its panel. -/
def displaysCouldNotLoad (r : LoaderResult) : Bool :=
  match r.panel with
  | some PanelContent.couldNotLoadSectors => true
  | some PanelContent.couldNotLoadNews => true
  | _ => false


/-- Tests whether the first list is an initial segment of the second. -/
def listStartsWith : List Char → List Char → Bool
  | [], _ => true
  | _ :: _, [] => false
  | p :: ps, c :: cs => p = c && listStartsWith ps cs

/-- The lazy group `(.*?)` of the markdown regexes (app.js lines 539–540),
up to a closing delimiter: consume as few characters as possible before
`closer`, never crossing a newline (`.` does not match `\n`), returning the
captured characters and the remainder after the closer. -/
def lazyCapture (closer : List Char) : List Char → Option (List Char × List Char)
  | [] => if listStartsWith closer [] then some ([], []) else none
  | c :: rest =>
      if listStartsWith closer (c :: rest) then
        some ([], (c :: rest).drop closer.length)
      else if c = '\n' then none
      else
        match lazyCapture closer rest with
        | none => none
        | some (cap, r) => some (c :: cap, r)

/-- One global-replace pass of a delimited pattern `marker(.*?)marker`,
rewritten to `pre ++ capture ++ post`: the left-to-right scan of
`String.replace` with a `g` regex. Scanning resumes after each match and
never rescans a replacement. The fuel is at least the character count, and
every step consumes at least one character. -/
def replaceMarkerAux (marker pre post : List Char) :
    Nat → List Char → List Char
  | 0, cs => cs
  | _ + 1, [] => []
  | fuel + 1, c :: rest =>
      if listStartsWith marker (c :: rest) then
        match lazyCapture marker ((c :: rest).drop marker.length) with
        | some (cap, r) =>
            pre ++ cap ++ post ++ replaceMarkerAux marker pre post fuel r
        | none => c :: replaceMarkerAux marker pre post fuel rest
      else c :: replaceMarkerAux marker pre post fuel rest

/-- One global-replace pass of a literal pattern (the `\n\n` and `\n`
substitutions of app.js lines 541–542). -/
def replaceLiteralAux (pat repl : List Char) : Nat → List Char → List Char
  | 0, cs => cs
  | _ + 1, [] => []
  | fuel + 1, c :: rest =>
      if listStartsWith pat (c :: rest) then
        repl ++ replaceLiteralAux pat repl fuel ((c :: rest).drop pat.length)
      else c :: replaceLiteralAux pat repl fuel rest

/-- Pass 1 of app.js line 539: bold markers to `<strong>` tags. -/
def replaceBold (s : String) : String :=
  String.mk (replaceMarkerAux ['*', '*'] "<strong>".data "</strong>".data
    s.data.length s.data)

/-- Pass 2 of app.js line 540: italic markers to `<em>` tags. -/
def replaceItalic (s : String) : String :=
  String.mk (replaceMarkerAux ['*'] "<em>".data "</em>".data
    s.data.length s.data)

/-- Pass 3 of app.js line 541: blank lines to paragraph breaks. -/
def replaceParagraphBreaks (s : String) : String :=
  String.mk (replaceLiteralAux ['\n', '\n'] "</p><p>".data s.data.length s.data)

/-- Pass 4 of app.js line 542: remaining newlines to `<br>`. -/
def replaceLineBreaks (s : String) : String :=
  String.mk (replaceLiteralAux ['\n'] "<br>".data s.data.length s.data)

/-- The markdown-lite chain of `getPortfolioAnalysis` (app.js lines
538–542), in the source's order: bold, then italic, then paragraph breaks,
then remaining line breaks. -/
def markdownLite (s : String) : String :=
  replaceLineBreaks (replaceParagraphBreaks (replaceItalic (replaceBold s)))

/-- The paragraph wrapper around the converted text
(app.js line 545). -/
def analysisHTML (analysis : String) : String :=
  "<p>" ++ markdownLite analysis ++ "</p>"


/-- The mutable client state touched by `removeStock`: the persisted store,
the module-level `selectedSymbol` (app.js line 7), and whether the news
section is shown. -/
structure AppState where
  store : Store
  selectedSymbol : Option String
  newsVisible : Bool
  deriving DecidableEq, Repr

/-- Embedding of `removeStock` (app.js lines 277–293): bail out unless the user confirms;
delete the key from the store; and when the removed symbol is the selected
one, null the selection and hide the news section. -/
def removeStock (symbol : String) (confirmed : Bool) (st : AppState) : AppState :=
  if !confirmed then st
  else
    let store' := st.store.filter fun p => p.1 != symbol
    if st.selectedSymbol = some symbol then
      { store := store', selectedSymbol := none, newsVisible := false }
    else
      { store := store', selectedSymbol := st.selectedSymbol,
        newsVisible := st.newsVisible }

end PortfolioApp

namespace PortfolioApp

/-- Field-level description of one merged view model (app.js lines 74–93). -/
theorem mkHoldingVM_fields (symbol : String) (loc : LocalHolding)
    (live : LiveQuote) :
    (mkHoldingVM symbol loc live).value =
      (mkHoldingVM symbol loc live).price * (mkHoldingVM symbol loc live).shares ∧
    (mkHoldingVM symbol loc live).shares = loc.shares ∧
    (mkHoldingVM symbol loc live).cost_average = loc.cost_average ∧
    (mkHoldingVM symbol loc live).price = live.price.getD 0 ∧
    (mkHoldingVM symbol loc live).change_percent = live.change_percent.getD 0 := by
  simp [mkHoldingVM]

/-- The P/L arithmetic of a single merged view model, phrased over its own
fields. -/
theorem mkHoldingVM_arith (symbol : String) (loc : LocalHolding)
    (live : LiveQuote) :
    (mkHoldingVM symbol loc live).value =
        (mkHoldingVM symbol loc live).price * (mkHoldingVM symbol loc live).shares ∧
    (mkHoldingVM symbol loc live).pl =
        (if (mkHoldingVM symbol loc live).cost_average * (mkHoldingVM symbol loc live).shares > 0
         then (mkHoldingVM symbol loc live).value -
              (mkHoldingVM symbol loc live).cost_average * (mkHoldingVM symbol loc live).shares
         else 0) ∧
    (mkHoldingVM symbol loc live).pl_percent =
        (if (mkHoldingVM symbol loc live).cost_average * (mkHoldingVM symbol loc live).shares > 0
         then (mkHoldingVM symbol loc live).pl /
              ((mkHoldingVM symbol loc live).cost_average * (mkHoldingVM symbol loc live).shares) * 100
         else 0) ∧
    ((mkHoldingVM symbol loc live).cost_average = 0 →
        (mkHoldingVM symbol loc live).pl = 0 ∧ (mkHoldingVM symbol loc live).pl_percent = 0) := by
  by_cases h : loc.cost_average * loc.shares > 0
  · refine ⟨by simp [mkHoldingVM], by simp [mkHoldingVM, h], by simp [mkHoldingVM, h], ?_⟩
    intro hca
    simp only [mkHoldingVM] at hca ⊢
    rw [hca] at h
    simp at h
  · exact ⟨by simp [mkHoldingVM], by simp [mkHoldingVM, h], by simp [mkHoldingVM, h],
      fun _ => ⟨by simp [mkHoldingVM, h], by simp [mkHoldingVM, h]⟩⟩

/-- C1: every holding merged by the reconciliation in `loadPortfolio`
satisfies `value = price * shares`; `pl = value - cost_average*shares` when
`cost_average*shares > 0` and `pl = 0` otherwise; `pl_percent =
pl / (cost_average*shares) * 100` when `cost_average*shares > 0` and `0`
otherwise; in particular `cost_average = 0` forces `pl = 0` and
`pl_percent = 0`. -/
theorem loadPortfolio_viewmodel_arithmetic (store : Store) (priceData : PriceResp)
    (vm : HoldingVM) (hvm : vm ∈ reconcileHoldings store priceData) :
    vm.value = vm.price * vm.shares ∧
    vm.pl = (if vm.cost_average * vm.shares > 0
             then vm.value - vm.cost_average * vm.shares else 0) ∧
    vm.pl_percent = (if vm.cost_average * vm.shares > 0
                     then vm.pl / (vm.cost_average * vm.shares) * 100 else 0) ∧
    (vm.cost_average = 0 → vm.pl = 0 ∧ vm.pl_percent = 0) := by
  rcases List.mem_map.mp hvm with ⟨p, _, rfl⟩
  exact mkHoldingVM_arith p.1 p.2 (lookupQuote priceData p.1)

/-- Witness for C1 at the spec's Scenario 1: store `{AAPL: {shares:10,
cost_average:150}}`, live snapshot `{AAPL: {price:200, change_percent:2.5}}`. -/
theorem loadPortfolio_viewmodel_arithmetic_witness :
    (let vm := mkHoldingVM "AAPL" ⟨10, 150⟩ ⟨some 200, some (5/2), none⟩
     vm.value = vm.price * vm.shares ∧
     vm.pl = (if vm.cost_average * vm.shares > 0
              then vm.value - vm.cost_average * vm.shares else 0) ∧
     vm.pl_percent = (if vm.cost_average * vm.shares > 0
                      then vm.pl / (vm.cost_average * vm.shares) * 100 else 0) ∧
     (vm.cost_average = 0 → vm.pl = 0 ∧ vm.pl_percent = 0)) :=
  loadPortfolio_viewmodel_arithmetic
    [("AAPL", ⟨10, 150⟩)] ⟨some [("AAPL", ⟨some 200, some (5/2), none⟩)]⟩
    (mkHoldingVM "AAPL" ⟨10, 150⟩ ⟨some 200, some (5/2), none⟩)
    (by simp [reconcileHoldings, lookupQuote, lookupQuoteList])

/-- Left-accumulation over a list is the sum of the mapped list. -/
theorem foldl_add_eq_sum (f : HoldingVM → ℚ) :
    ∀ (l : List HoldingVM) (a : ℚ),
      l.foldl (fun acc h => acc + f h) a = a + (l.map f).sum
  | [], a => by simp
  | h :: t, a => by
      simp only [List.foldl_cons, List.map_cons, List.sum_cons]
      rw [foldl_add_eq_sum f t (a + f h)]
      ring

/-- C2: for every list of holdings produced by one reconciliation pass, the
summary equals the sum of per-holding contributions: `total_value = Σ value`,
`total_pl = Σ pl`, and `daily_change = Σ change_percent/100 * value`. -/
theorem loadPortfolio_summary_is_sum (store : Store) (priceData : PriceResp) :
    (reconcileSummary (reconcileHoldings store priceData)).total_value =
      ((reconcileHoldings store priceData).map (fun h => h.value)).sum ∧
    (reconcileSummary (reconcileHoldings store priceData)).total_pl =
      ((reconcileHoldings store priceData).map (fun h => h.pl)).sum ∧
    (reconcileSummary (reconcileHoldings store priceData)).daily_change =
      ((reconcileHoldings store priceData).map
        (fun h => h.change_percent / 100 * h.value)).sum := by
  refine ⟨?_, ?_, ?_⟩ <;>
    simp [reconcileSummary, foldl_add_eq_sum]

/-- C3: a locally held symbol whose quote is absent from the snapshot (or has
its `price` and `change_percent` fields missing) does not break
reconciliation: every local entry still yields a view model, and that
symbol's view model carries `price = 0`, `change_percent = 0`, `value = 0`. -/
theorem loadPortfolio_missing_quote_zeroed (store : Store) (priceData : PriceResp)
    (sym : String) (loc : LocalHolding)
    (hmem : (sym, loc) ∈ store)
    (hprice : (lookupQuote priceData sym).price = none)
    (hchange : (lookupQuote priceData sym).change_percent = none) :
    (reconcileHoldings store priceData).length = store.length ∧
    ∃ vm ∈ reconcileHoldings store priceData,
      vm.symbol = sym ∧ vm.price = 0 ∧ vm.change_percent = 0 ∧ vm.value = 0 := by
  refine ⟨List.length_map _ _, mkHoldingVM sym loc (lookupQuote priceData sym),
    List.mem_map_of_mem _ hmem, ?_⟩
  simp [mkHoldingVM, hprice, hchange]

/-- Witness for C3: one local holding, a snapshot with no `prices` object. -/
theorem loadPortfolio_missing_quote_zeroed_witness :
    (reconcileHoldings [("MSFT", ⟨5, 100⟩)] ⟨none⟩).length =
      ([("MSFT", (⟨5, 100⟩ : LocalHolding))] : Store).length ∧
    ∃ vm ∈ reconcileHoldings [("MSFT", ⟨5, 100⟩)] ⟨none⟩,
      vm.symbol = "MSFT" ∧ vm.price = 0 ∧ vm.change_percent = 0 ∧ vm.value = 0 :=
  loadPortfolio_missing_quote_zeroed [("MSFT", ⟨5, 100⟩)] ⟨none⟩ "MSFT" ⟨5, 100⟩
    (by simp) (by simp [lookupQuote, emptyQuote]) (by simp [lookupQuote, emptyQuote])

end PortfolioApp

namespace PortfolioApp

/-- A fresh upsert is visible to lookup. -/
theorem lookupStore_upsert (sym : String) (h : LocalHolding) :
    ∀ store : Store, lookupStore (upsert store sym h) sym = some h
  | [] => by simp [upsert, lookupStore]
  | (k, v) :: rest => by
      by_cases hk : k = sym
      · simp [upsert, hk, lookupStore]
      · simp [upsert, hk, lookupStore, lookupStore_upsert sym h rest]

/-- C7: `addStock` with symbol input `"tsla"`, shares input `0` and cost
input `0`, when validation succeeds, coerces the falsy shares value to the
fallback `1` and writes `{shares: 1, cost_average: 0}` into the store under
the normalized key `"TSLA"`. -/
theorem addStock_zero_shares_defaults_to_one (store : Store) :
    addStock "tsla" (some 0) (some 0) ValidateOutcome.ok store =
      (upsert store "TSLA" ⟨1, 0⟩, AddResult.added) ∧
    lookupStore (addStock "tsla" (some 0) (some 0) ValidateOutcome.ok store).1
      "TSLA" = some ⟨1, 0⟩ := by
  have hs : (jsToUpper (jsTrim "tsla")) = "TSLA" := by decide
  refine ⟨?_, ?_⟩ <;> simp [addStock, hs, jsOr, lookupStore_upsert]

/-- C8: when the removed symbol equals the current selection, `removeStock`
(confirmed) nulls the selection and hides the news panel; removing any other
symbol leaves the selection unchanged. -/
theorem removeStock_selection (st : AppState) (symbol : String) :
    (st.selectedSymbol = some symbol →
      (removeStock symbol true st).selectedSymbol = none ∧
      (removeStock symbol true st).newsVisible = false) ∧
    (st.selectedSymbol ≠ some symbol →
      (removeStock symbol true st).selectedSymbol = st.selectedSymbol) := by
  constructor
  · intro h
    simp [removeStock, h]
  · intro h
    simp [removeStock, h]

/-- Witness for C8: removing the selected symbol from a one-holding state. -/
theorem removeStock_selection_witness :
    (removeStock "AAPL" true ⟨[("AAPL", ⟨1, 0⟩)], some "AAPL", true⟩).selectedSymbol
        = none ∧
    (removeStock "AAPL" true ⟨[("AAPL", ⟨1, 0⟩)], some "AAPL", true⟩).newsVisible
        = false :=
  (removeStock_selection ⟨[("AAPL", ⟨1, 0⟩)], some "AAPL", true⟩ "AAPL").1 rfl

/-- C9: writing back the result of a read — `put(get())` on the Local
Holdings Store — is a no-op on a subsequent `get()`. -/
theorem localStore_put_get_roundtrip (ls : Option Store) :
    getLocalPortfolio (saveLocalPortfolio (getLocalPortfolio ls)) =
      getLocalPortfolio ls := by
  cases ls <;> rfl

/-- C10: when the symbol-validation request fails (non-success HTTP status or
network error), `addStock` leaves the store unchanged: the write happens only
after validation succeeds. -/
theorem addStock_failure_leaves_store (symbolInput : String)
    (sharesVal costVal : Option ℚ) (validation : ValidateOutcome)
    (store : Store) (hv : validation ≠ ValidateOutcome.ok) :
    (addStock symbolInput sharesVal costVal validation store).1 = store := by
  cases validation with
  | ok => exact absurd rfl hv
  | httpError =>
      by_cases hsym : jsToUpper (jsTrim symbolInput) = "" <;> simp [addStock, hsym]
  | networkError =>
      by_cases hsym : jsToUpper (jsTrim symbolInput) = "" <;> simp [addStock, hsym]

/-- Witness for C10: a failed validation for `"zzzz"` against a one-holding
store leaves it intact. -/
theorem addStock_failure_leaves_store_witness :
    (addStock "zzzz" (some 3) (some 10) ValidateOutcome.httpError
        [("AAPL", ⟨1, 0⟩)]).1 = [("AAPL", ⟨1, 0⟩)] :=
  addStock_failure_leaves_store "zzzz" (some 3) (some 10)
    ValidateOutcome.httpError [("AAPL", ⟨1, 0⟩)] (by decide)

end PortfolioApp

namespace PortfolioApp

/-- C4 counterexample: on a fetch failure the portfolio panel does NOT
display a "could not load" placeholder — `loadPortfolio`'s `catch`
(app.js lines 99–101) only logs and leaves the holdings grid untouched,
contradicting the claim that every affected panel shows the placeholder. -/
theorem loadPortfolio_failure_no_placeholder :
    (loadPortfolioModel (some [("AAPL", ⟨10, 150⟩)]) FetchOutcome.failure).panel
      = none ∧
    (loadPortfolioModel (some [("AAPL", ⟨10, 150⟩)]) FetchOutcome.failure).logged
      = true ∧
    displaysCouldNotLoad
      (loadPortfolioModel (some [("AAPL", ⟨10, 150⟩)]) FetchOutcome.failure)
      = false :=
  ⟨rfl, rfl, rfl⟩

/-- C4 (amended): every network/parse failure is caught and logged and no
error propagates; the sectors and news panels display their muted
"could not load" placeholders, while the portfolio panel is left unchanged
(its `catch` only logs). -/
theorem panel_failure_handling :
    loadSectorsModel FetchOutcome.failure =
      ⟨some PanelContent.couldNotLoadSectors, true⟩ ∧
    loadNewsModel FetchOutcome.failure =
      ⟨some PanelContent.couldNotLoadNews, true⟩ ∧
    ∀ ls : Option Store, getLocalPortfolio ls ≠ [] →
      loadPortfolioModel ls FetchOutcome.failure = ⟨none, true⟩ := by
  refine ⟨rfl, rfl, ?_⟩
  intro ls h
  match hls : getLocalPortfolio ls with
  | [] => exact absurd hls h
  | x :: xs => simp [loadPortfolioModel, hls]

/-- Witness for the amended C4 at a one-holding store. -/
theorem panel_failure_handling_witness :
    loadPortfolioModel (some [("AAPL", ⟨10, 150⟩)]) FetchOutcome.failure =
      ⟨none, true⟩ :=
  panel_failure_handling.2.2 (some [("AAPL", ⟨10, 150⟩)]) (by decide)

/-- C5: the markdown-lite rendering applies its substitutions in the fixed
order bold, italic, paragraph breaks, line breaks; the text
`"**Buy** more\n\n*Sell* less"` renders (with the `<p>` wrapper of app.js
line 545) to two paragraphs with "Buy" strong-emphasized and "Sell"
italicized. -/
theorem markdown_substitution_order :
    (∀ s : String,
      markdownLite s =
        replaceLineBreaks (replaceParagraphBreaks (replaceItalic (replaceBold s)))) ∧
    analysisHTML "**Buy** more\n\n*Sell* less" =
      "<p><strong>Buy</strong> more</p><p><em>Sell</em> less</p>" :=
  ⟨fun _ => rfl, by decide⟩

/-- C6: a sector card is flagged top-gainer iff its 1-based rank is at most
3 and its change is non-negative; on the spec's five-sector scenarios the
flags are exactly `[T,T,T,F,F]`, and `[T,F,T,F,F]` when rank 2 is
negative. -/
theorem sector_top_gainer_rule :
    (∀ (sectors : List Sector) (i : Nat),
      ((renderSectorCards sectors)[i]?).map (fun c => c.topGainer) =
        (sectors[i]?).map
          (fun s => decide (i + 1 ≤ 3) && jsNonNeg s.change_percent)) ∧
    (renderSectorCards
        [⟨"Tech", "XLK", some 100, some 2, none, none⟩,
         ⟨"Financials", "XLF", some 100, some 1, none, none⟩,
         ⟨"Energy", "XLE", some 100, some 0, none, none⟩,
         ⟨"Health", "XLV", some 100, some 5, none, none⟩,
         ⟨"Discretionary", "XLY", some 100, some 7, none, none⟩]).map
      (fun c => c.topGainer) = [true, true, true, false, false] ∧
    (renderSectorCards
        [⟨"Tech", "XLK", some 100, some 2, none, none⟩,
         ⟨"Financials", "XLF", some 100, some (-1), none, none⟩,
         ⟨"Energy", "XLE", some 100, some 0, none, none⟩,
         ⟨"Health", "XLV", some 100, some 5, none, none⟩,
         ⟨"Discretionary", "XLY", some 100, some 7, none, none⟩]).map
      (fun c => c.topGainer) = [true, false, true, false, false] := by
  refine ⟨?_, by decide, by decide⟩
  intro sectors i
  simp only [renderSectorCards, List.getElem?_map, List.getElem?_enum,
    renderSectorCard, Option.map_map, Function.comp]
  cases sectors[i]? <;> rfl

end PortfolioApp
